import Mathlib

/-!
Shallow embedding of the rule-driven synthetic-data generator
(carlohakkoda1/synthetic-data-generator) and proofs about its claims.

Conventions of the embedding:
* Python strings are Lean `String`s; slicing, `strip`, `startswith`,
  substring tests and `lower` are embedded as the `py...` helpers below
  (ASCII-faithful, which covers every string the generator handles).
* Dates are modelled as day ordinals (`Nat`): `"%Y-%m-%d"` strings are
  totally ordered and `timedelta(days=1)` subtraction becomes `- 1`.
* A call to Python's `random` module is modelled by an oracle argument:
  `random.randint(lo, hi)` becomes `randBetween lo hi r` where `r` is the
  oracle draw; `random.choice(xs)` becomes indexing by an oracle draw.
  Every draw lands inside the interval the source requests.
* CSV files materialized on disk are modelled as optional in-memory
  tables (`Option CsvTable`); a missing file is `Option.none`.
-/

/-- Embedding of Python `str.lower()` (ASCII case folding, which is all the
repository's type names use). -/
def pyLower (s : String) : String := String.mk (s.data.map Char.toLower)

/-- Contiguous-sublist test on character lists: the embedding of Python's
`pat in s` substring operator. -/
def charsContain (pat : List Char) : List Char → Bool
  | [] => pat.isEmpty
  | c :: rest => pat.isPrefixOf (c :: rest) || charsContain pat rest

/-- Embedding of Python `pat in s` for strings. -/
def pyContains (s pat : String) : Bool := charsContain pat.data s.data

/-- Embedding of Python `s.strip()` (drop whitespace at both ends). -/
def pyStrip (s : String) : String :=
  String.mk (((s.data.dropWhile Char.isWhitespace).reverse.dropWhile
    Char.isWhitespace).reverse)

/-- Embedding of Python `s.startswith(pre)`. -/
def pyStartsWith (s pre : String) : Bool := pre.data.isPrefixOf s.data

/-- Embedding of Python string slicing `s[:n]`. -/
def pyTake (s : String) (n : Nat) : String := String.mk (s.data.take n)

/-- Model of `random.randint(lo, hi)`: the oracle draw `r` reduced into the
inclusive interval requested by the source. -/
def randBetween (lo hi r : Nat) : Nat := lo + r % (hi + 1 - lo)

/-- Fuel-bounded little-endian decimal digits (structural recursion so the
kernel can evaluate it). -/
def decDigitsAux : Nat → Nat → List Nat
  | 0, _ => []
  | _ + 1, 0 => []
  | fuel + 1, n + 1 => ((n + 1) % 10) :: decDigitsAux fuel ((n + 1) / 10)

/-- Little-endian decimal digits of `n` (fuel `n` is always enough). -/
def decDigits (n : Nat) : List Nat := decDigitsAux n n

/-- Big-endian decimal digits of `n`, with `str(0) = "0"`. -/
def pyDigitsBE (n : Nat) : List Nat :=
  if n = 0 then [0] else (decDigits n).reverse

/-- Embedding of Python `str(n)` for a natural number: its decimal digit
string, most significant digit first. -/
def pyStrNat (n : Nat) : String :=
  String.mk ((pyDigitsBE n).map (fun d => Char.ofNat (48 + d)))

/-- Random inputs consumed by one call of a type-default generator:
the `fake.word()` result and the `random.randint` draw. -/
structure GenOracle where
  word : String
  r : Nat
  deriving Repr

/-- Embedding of `generators/base_rules.py::get_generator` (the returned
zero-argument closure applied to its random oracle).  Branch order follows
the source: `"varchar" in dtype` is tested before `"int" in dtype`; the
`int` branch draws `randint(10**(length-1), 10**length - 1)` when
`length > 1` and `randint(0, 9)` otherwise; anything else is `"UNKNOWN"`. -/
def get_generator (dtype : String) (length : Nat) (o : GenOracle) : String :=
  let d := pyLower dtype
  if pyContains d "varchar" then
    pyTake o.word length
  else if pyContains d "int" then
    if length > 1 then
      pyStrNat (randBetween (10 ^ (length - 1)) (10 ^ length - 1) o.r)
    else
      pyStrNat (randBetween 0 9 o.r)
  else
    "UNKNOWN"

/-- Is every character of the string a decimal digit? -/
def isDigitString (s : String) : Bool :=
  !s.data.isEmpty && s.data.all (fun c => decide ('0' ≤ c) && decide (c ≤ '9'))

-- Sanity examples for the embedding (concrete evaluation).
example : pyContains (pyLower "VARCHAR2") "varchar" = true := by decide
example : pyContains (pyLower "varchar_int") "int" = true := by decide
example : pyStrNat 507 = "507" := by decide
example : get_generator "int" 3 ⟨"hello", 17⟩ = pyStrNat (100 + 17 % 900) := by decide

/-!
Embedding of `utils/foreign_key_util.py` and the referential-integrity
pool of `generators/custom_rules/employee_rules.py`.
-/

/-- An in-memory image of a materialized CSV table: each column name paired
with its cells (a cell is `Option.none` for a null/NaN entry). -/
abbrev CsvTable : Type := List (String × List (Option String))

/-- Embedding of `column_name in df.columns` plus `df[column_name]`:
the cells of the named column, if the column exists. -/
def colLookup (t : CsvTable) (col : String) : Option (List (Option String)) :=
  (List.find? (fun p => p.1 = col) t).map (fun p => p.2)

/-- Fuel-bounded worker for `uniqueFirst` (structural recursion so the
kernel can evaluate it; the list length is always enough fuel). -/
def uniqueFirstAux : Nat → List String → List String
  | 0, _ => []
  | _ + 1, [] => []
  | fuel + 1, x :: xs => x :: uniqueFirstAux fuel (xs.filter (fun y => y ≠ x))

/-- Embedding of pandas `Series.unique()`: keep the first occurrence of
each value, preserving encounter order. -/
def uniqueFirst (l : List String) : List String := uniqueFirstAux l.length l

/-- Embedding of `utils/foreign_key_util.py::get_foreign_values`: on a
missing file (`Option.none` table) or a missing column it warns and returns
`[]`; otherwise it returns `df[column_name].dropna().unique().tolist()`.
The module-level cache is transparent for a pure read and is not modelled. -/
def get_foreign_values (table : Option CsvTable) (column_name : String) :
    List String :=
  match table with
  | Option.none => []
  | Option.some t =>
    match colLookup t column_name with
    | Option.none => []
    | Option.some cells => uniqueFirst (cells.filterMap id)

/-- The reuse cap of the employee-domain referential-integrity pool
(`if count < 2` in `employee_rules.foreign_key`). -/
def reuseCap : Nat := 2

/-- Usage ledger of one `(table, column)` pool key, organised by reset
windows.  `current` lists the values served since the last reset (the
union of the `_pk_generator` lists for this key: each serve appends the
value once, a reset deletes them all); `closedWindows` are the serve lists
of the completed windows, most recent first. -/
structure PoolState where
  closedWindows : List (List String)
  current : List String
  deriving Repr

/-- The fresh ledger (`_pk_generator` empty for this key). -/
def initPool : PoolState := ⟨[], []⟩

/-- All reset windows of the ledger, the open one first. -/
def poolWindows (st : PoolState) : List (List String) :=
  st.current :: st.closedWindows

/-- Embedding of the acquisition loop of
`employee_rules.foreign_key` (lines 161-185) for one pool key.
`picks` are the successive `random.choice` draws of the bounded `while`
loop (the source bounds it to `2 * len(pool)` attempts); `resetPick` is
the draw made after the ledger reset.  A pick is served when its count in
the current window is below the cap; if no pick qualifies, the ledger for
this key is cleared and `resetPick` is served into the fresh window. -/
def poolAcquire (st : PoolState) (picks : List String) (resetPick : String) :
    String × PoolState :=
  match picks.find? (fun v => st.current.count v < reuseCap) with
  | Option.some v => (v, ⟨st.closedWindows, st.current ++ [v]⟩)
  | Option.none => (resetPick, ⟨st.current :: st.closedWindows, [resetPick]⟩)

/-- Run a sequence of acquisitions against one pool key, returning the
final ledger state and the served values in order. -/
def runPool (st : PoolState) : List (List String × String) →
    PoolState × List String
  | [] => (st, [])
  | (picks, resetPick) :: ops =>
    let p := poolAcquire st picks resetPick
    let q := runPool p.2 ops
    (q.1, p.1 :: q.2)

/-- Embedding of the empty-pool guard of `employee_rules.foreign_key`
(lines 153-159): an empty candidate pool yields `""` with a warning (the
`Bool` component) and does not touch the ledger; otherwise the acquisition
loop runs. -/
def foreign_key_acquire (pool : List String) (st : PoolState)
    (picks : List String) (resetPick : String) :
    String × PoolState × Bool :=
  if pool.isEmpty then ("", st, true)
  else
    let p := poolAcquire st picks resetPick
    (p.1, p.2, false)

example :
    (runPool initPool [(["a"], "z"), (["a"], "z"), (["a", "b"], "z")]).2 =
      ["a", "a", "b"] := by decide
example :
    (runPool initPool [(["a"], "z"), (["a"], "z"), (["a"], "z")]).2 =
      ["a", "a", "z"] := by decide

/-!
Embedding of the date-versioning rules
`employee_rules.generate_end_date` / `generate_start_date`.

Dates are day ordinals: `floorDate`, `ceilDate` and `sentinelDate` stand
for the source constants `'2017-01-01'`, `'2025-06-01'` and
`'4712-12-31'`, measured in days from `'2017-01-01'`; only their relative
order matters for the claims (`floorDate ≤ ceilDate < sentinelDate`).
`random_date_between(lo, hi)` computes `lo + randint(0, hi - lo)`, i.e.
`randBetween lo hi` of the oracle draw.
-/

/-- Day ordinal of `'2017-01-01'`, the default `min_date`. -/
def floorDate : Nat := 0

/-- Day ordinal of `'2025-06-01'`, the default `max_date`. -/
def ceilDate : Nat := 3073

/-- Day ordinal of the open-ended sentinel `'4712-12-31'`. -/
def sentinelDate : Nat := 999999

/-- Per-person slices of the module state `person_start_dates[pid]` and
`person_end_dates[pid]` of `employee_rules.py`. -/
structure PersonState where
  starts : List Nat
  ends : List Nat
  deriving Repr

/-- State before the first sighting of a person id (id absent from both
dictionaries). -/
def initPerson : PersonState := ⟨[], []⟩

/-- One sighting of a person id: the schema evaluates `ENDDA` via
`generate_end_date(pid)` and then `BEGDA` via `generate_start_date(pid)`.
Returns the new state and the generated `(end_date, start_date)` pair.

Faithful to the source:
* first sighting (`pid not in person_start_dates`): end is the sentinel,
  appended to `person_end_dates[pid]`; start is
  `random_date_between()` (floor..ceil), and `[start]` becomes
  `person_start_dates[pid]`;
* later sightings: end is `person_start_dates[pid][0] - 1 day` (the FIRST
  recorded start), appended to the end list; start is
  `random_date_between(max_date = person_end_dates[pid][1])` (the end list
  entry at index 1), and is NOT appended to the start list. -/
def personSight (st : PersonState) (draw : Nat) :
    PersonState × Nat × Nat :=
  match st.starts with
  | [] =>
    let e := sentinelDate
    let s := randBetween floorDate ceilDate draw
    (⟨[s], st.ends ++ [e]⟩, e, s)
  | s0 :: rest =>
    let e := s0 - 1
    let ends' := st.ends ++ [e]
    let maxD := ends'.getD 1 0
    let s := randBetween floorDate maxD draw
    (⟨s0 :: rest, ends'⟩, e, s)

/-- Run the sightings of one person id in order, collecting the generated
`(end_date, start_date)` pair of each sighting. -/
def runSightings (st : PersonState) : List Nat → PersonState × List (Nat × Nat)
  | [] => (st, [])
  | d :: ds =>
    let p := personSight st d
    let q := runSightings p.1 ds
    (q.1, p.2 :: q.2)

example :
    (runSightings initPerson [100, 50, 70]).2 =
      [(sentinelDate, 100), (99, 50), (99, 70)] := by decide

/-!
Embedding of the foreign-key branch of
`utils/table_generator.py::generate_table` (lines 66-85).
-/

/-- Value assigned to a foreign-key column for row index `i` of a
`generate_table` call asked for `numRows` rows.  Mirrors the source: an
empty candidate list raises `"No foreign key candidates found"`, caught by
the per-column handler which substitutes `""`; on `1:1` cardinality, fewer
candidates than rows raises `"Not enough FK candidates"`, likewise caught
to `""`, and otherwise row `i` receives `candidates[i]`; on `1:N` a random
candidate is drawn (`r` is the `random.choice` oracle). -/
def fkColumnValue (candidates : List String) (is1to1 : Bool)
    (numRows i r : Nat) : String :=
  if candidates.isEmpty then ""
  else if is1to1 then
    if candidates.length < numRows then ""
    else candidates.getD i ""
  else candidates.getD (r % candidates.length) ""

/-- The whole `1:1` foreign-key column produced by one `generate_table`
call (positional index `i` runs over the rows of that call). -/
def fkColumn1to1 (candidates : List String) (numRows : Nat) : List String :=
  (List.range numRows).map (fun i => fkColumnValue candidates true numRows i 0)

/-- Fuel-bounded worker for `chunkSizes` (structural recursion; fuel
`remaining` is always enough since each chunk removes at least one row).
The `chunk = 0` guard only makes the function total: the source's
`while` loop would not terminate there. -/
def chunkSizesAux (chunk : Nat) : Nat → Nat → List Nat
  | 0, _ => []
  | _ + 1, 0 => []
  | fuel + 1, remaining + 1 =>
    if chunk = 0 then []
    else
      let k := min chunk (remaining + 1)
      k :: chunkSizesAux chunk fuel (remaining + 1 - k)

/-- Chunk sizes of the chunked-writer loop of
`generate_table_chunked`: `min(chunk_size, remaining)` repeatedly until no
rows remain. -/
def chunkSizes (chunk : Nat) (remaining : Nat) : List Nat :=
  chunkSizesAux chunk remaining remaining

/-- The `1:1` foreign-key column of a table generated in chunks: each
chunk is a fresh `generate_table` call, so the positional index and the
row-count check restart per chunk. -/
def fkColumn1to1Chunked (candidates : List String) (total chunk : Nat) :
    List String :=
  ((chunkSizes chunk total).map (fun k => fkColumn1to1 candidates k)).flatten

example : fkColumn1to1 ["a", "b", "c"] 2 = ["a", "b"] := by decide
example : chunkSizes 2 5 = [2, 2, 1] := by decide
example :
    fkColumn1to1Chunked ["a", "b", "c", "d"] 4 2 = ["a", "b", "a", "b"] := by
  decide

/-!
Embedding of the parent-lookup caches:
`employee_rules.get_lookup_map` / `lookup_parent_value` and
`vendor_rules.lookup_parent_value`.
-/

/-- One materialized row as pandas `iterrows` yields it: column names
paired with cell values. -/
abbrev CsvRow : Type := List (String × String)

/-- Embedding of `column in row` plus `row[column]` on a pandas row. -/
def rowGet (r : CsvRow) (col : String) : Option String :=
  (List.find? (fun p => p.1 = col) r).map (fun p => p.2)

/-- Python `dict` insertion: a later binding of an existing key overwrites
the earlier one. -/
def dictInsert {V : Type} (m : List (String × V)) (k : String) (v : V) :
    List (String × V) :=
  if m.any (fun p => p.1 = k) then
    m.map (fun p => if p.1 = k then (k, v) else p)
  else m ++ [(k, v)]

/-- Python `dict.get`. -/
def dictGet {V : Type} (m : List (String × V)) (k : String) : Option V :=
  (List.find? (fun p => p.1 = k) m).map (fun p => p.2)

/-- Embedding of `employee_rules.get_lookup_map`: the dict comprehension
`row[fk_column_name]: row for _, row in df.iterrows()` over the
materialized source rows. -/
def get_lookup_map (rows : List CsvRow) (fk_column_name : String) :
    List (String × CsvRow) :=
  rows.foldl (fun m r => dictInsert m ((rowGet r fk_column_name).getD "") r) []

/-- Embedding of `employee_rules.lookup_parent_value`: fetch the cached
row for `source_value` and return its `look_up_column` cell, `None` when
either is absent. -/
def lookup_parent_value (rows : List CsvRow)
    (fk_column_name look_up_column source_value : String) : Option String :=
  match dictGet (get_lookup_map rows fk_column_name) source_value with
  | Option.none => Option.none
  | Option.some row =>
    match rowGet row look_up_column with
    | Option.some v => Option.some v
    | Option.none => Option.none

/-- Embedding of `vendor_rules.lookup_parent_value`'s cached dictionary:
`df.set_index(fk_column_name)[look_up_column].to_dict()` (a later row with
a duplicated key overwrites the earlier one). -/
def vendorLookupDict (rows : List CsvRow)
    (fk_column_name look_up_column : String) : List (String × String) :=
  rows.foldl
    (fun m r =>
      dictInsert m ((rowGet r fk_column_name).getD "")
        ((rowGet r look_up_column).getD ""))
    []

/-- Embedding of `vendor_rules.lookup_parent_value`:
`lookup_dict.get(source_value, None)`. -/
def vendor_lookup_parent_value (rows : List CsvRow)
    (fk_column_name look_up_column source_value : String) : Option String :=
  dictGet (vendorLookupDict rows fk_column_name look_up_column) source_value

/-!
Embedding of the rule dispatch of `core/data_generator.py::generate_table`
(lines 40-85) for one column of one row.
-/

/-- The `FAKE_RULE` cell of a column spec: missing/NaN, a string, or some
other non-null non-string value (for which `isinstance(rule, str)` is
false). -/
inductive PyRule where
  | noRule : PyRule
  | str : String → PyRule
  | nonStr : PyRule
  deriving Repr, DecidableEq

/-- Random inputs consumed by one dispatch: the faker call result, the
custom-rule result, and the type-default generator's oracle. -/
structure DispatchOracle where
  fakerRes : String
  customRes : String
  gen : GenOracle
  deriving Repr

/-- Embedding of the `if pd.isna(rule) / elif ... faker ... / elif
isinstance(rule, str) and rules_module / else get_generator` chain of
`core/data_generator.py::generate_table`.  The result is `Option.none`
exactly when the source leaves the Python value `None`. -/
def dataGenDispatch (rule : PyRule) (hasRulesModule : Bool)
    (dtype : String) (length : Nat) (o : DispatchOracle) : Option String :=
  match rule with
  | PyRule.noRule => Option.none
  | PyRule.str s =>
    if pyStartsWith (pyStrip s) "faker." then
      Option.some (pyTake o.fakerRes length)
    else if hasRulesModule then
      Option.some o.customRes
    else
      Option.some (get_generator dtype length o.gen)
  | PyRule.nonStr => Option.some (get_generator dtype length o.gen)

/-!
Embedding of `core/data_generator.py::generate_table_chunked` as a writer
of CSV lines, parametric in the row generator: `generate_table` is row-by-
row generation threading the process-wide random/rule state, so one chunk
of `k` rows is `genRows g k` from the state the previous chunk left.
-/

/-- A line of the CSV sink: the header line or a data row. -/
inductive CsvLine (Row : Type) where
  | header : CsvLine Row
  | row : Row → CsvLine Row
  deriving Repr, DecidableEq

/-- Generate `n` rows with the state-threading row generator `g`,
returning them in order together with the final state. -/
def genRows {S Row : Type} (g : S → Row × S) : Nat → S → List Row × S
  | 0, s => ([], s)
  | n + 1, s =>
    let p := g s
    let q := genRows g n p.2
    (p.1 :: q.1, q.2)

/-- The file produced by generating `n` rows in one pass and writing once
(`df.to_csv(..., index=False)`: header line then the data rows). -/
def onePassFile {S Row : Type} (g : S → Row × S) (n : Nat) (s : S) :
    List (CsvLine Row) :=
  CsvLine.header :: ((genRows g n s).1.map CsvLine.row)

/-- Fuel-bounded worker for the chunked-writer loop (structural recursion;
fuel `remaining` is always enough).  Each iteration generates
`min(chunk_size, remaining)` rows and appends them to the file, writing
the header only when no rows have been written yet
(`header=(rows_written == 0)`).  The `chunk = 0` guard only makes the
function total: the source's `while` loop would not terminate there. -/
def chunkedLoopAux {S Row : Type} (g : S → Row × S) (chunk : Nat) :
    Nat → Nat → Bool → S → List (CsvLine Row)
  | 0, _, _, _ => []
  | _ + 1, 0, _, _ => []
  | fuel + 1, remaining + 1, first, s =>
    if chunk = 0 then []
    else
      let k := min chunk (remaining + 1)
      let p := genRows g k s
      ((if first then [CsvLine.header] else []) ++ p.1.map CsvLine.row)
        ++ chunkedLoopAux g chunk fuel (remaining + 1 - k) false p.2

/-- The file produced by `generate_table_chunked` for `total` rows with
chunk size `chunk` (the previous output file is deleted first, so the
result is exactly the lines appended by the loop). -/
def chunkedFile {S Row : Type} (g : S → Row × S) (chunk total : Nat) (s : S) :
    List (CsvLine Row) :=
  chunkedLoopAux g chunk total total true s

/-!
Embedding of the per-table dispatch of `main.py::main` (lines 149-180).
-/

/-- The two generation modes of `main`. -/
inductive GenMode where
  | chunked : GenMode
  | inMemory : GenMode
  deriving Repr, DecidableEq

/-- The chunk threshold constant `CHUNK_THRESHOLD = 5000` of `main`. -/
def CHUNK_THRESHOLD : Nat := 5000

/-- Embedding of `main`'s mode choice:
`if num_rows > CHUNK_THRESHOLD: generate_table_chunked(...) else:
generate_table(...)` followed by a single `to_csv`. -/
def tableMode (num_rows : Nat) : GenMode :=
  if num_rows > CHUNK_THRESHOLD then GenMode.chunked else GenMode.inMemory

example :
    (chunkedFile (fun s => (s, s + 1)) 2 3 0 : List (CsvLine Nat)) =
      [CsvLine.header, CsvLine.row 0, CsvLine.row 1, CsvLine.row 2] := by
  decide
example : tableMode 5001 = GenMode.chunked := by decide

/-!
Helper lemmas.
-/

/-- A `randBetween` draw lies in the requested inclusive interval. -/
theorem randBetween_bounds (lo hi r : Nat) (h : lo ≤ hi) :
    lo ≤ randBetween lo hi r ∧ randBetween lo hi r ≤ hi := by
  unfold randBetween
  have hpos : 0 < hi + 1 - lo := by omega
  have hlt := Nat.mod_lt r hpos
  omega

/-- The fuel-bounded digit worker agrees with `Nat.digits 10` whenever the
fuel covers the argument. -/
theorem decDigitsAux_eq_digits :
    ∀ (fuel n : Nat), n ≤ fuel → decDigitsAux fuel n = Nat.digits 10 n := by
  intro fuel
  induction fuel with
  | zero =>
    intro n hn
    have : n = 0 := Nat.le_zero.mp hn
    subst this
    simp [decDigitsAux]
  | succ fuel ih =>
    intro n hn
    match n with
    | 0 => simp [decDigitsAux]
    | m + 1 =>
      rw [decDigitsAux]
      rw [Nat.digits_def' (by norm_num : (1 : Nat) < 10) (Nat.succ_pos m)]
      have hdiv : (m + 1) / 10 ≤ fuel := by
        have := Nat.div_lt_self (Nat.succ_pos m) (by norm_num : 1 < 10)
        omega
      rw [ih _ hdiv]

/-- The decimal-digit embedding agrees with `Nat.digits 10`. -/
theorem decDigits_eq_digits (n : Nat) : decDigits n = Nat.digits 10 n :=
  decDigitsAux_eq_digits n n (Nat.le_refl n)

/-- Characters of `pyStrNat` and its length. -/
theorem pyStrNat_length (n : Nat) :
    (pyStrNat n).length = (pyDigitsBE n).length := by
  simp [pyStrNat, String.length]

/-- For a positive number `pyDigitsBE` is the reversed `Nat.digits 10`. -/
theorem pyDigitsBE_pos (n : Nat) (h : n ≠ 0) :
    pyDigitsBE n = (Nat.digits 10 n).reverse := by
  simp [pyDigitsBE, h, decDigits_eq_digits]

/-- A number in `[10^(L-1), 10^L)` with `1 ≤ L` prints with exactly `L`
decimal digits. -/
theorem pyStrNat_length_of_bounds (L n : Nat) (hL : 1 ≤ L)
    (h1 : 10 ^ (L - 1) ≤ n) (h2 : n < 10 ^ L) :
    (pyStrNat n).length = L := by
  have hn : n ≠ 0 := by
    have : 0 < 10 ^ (L - 1) := Nat.pos_pow_of_pos _ (by norm_num)
    omega
  rw [pyStrNat_length, pyDigitsBE_pos n hn, List.length_reverse]
  rw [Nat.digits_len 10 n (by norm_num) hn]
  have hlog : Nat.log 10 n = L - 1 := by
    apply Nat.log_eq_of_pow_le_of_lt_pow h1
    have : L - 1 + 1 = L := by omega
    rw [this]
    exact h2
  omega

/-- The leading character of `pyStrNat n` is a nonzero digit for `n` with
at least two digits (in fact whenever `10 ≤ n`). -/
theorem pyStrNat_head_ne_zero (n : Nat) (hn : n ≠ 0) :
    (pyStrNat n).data.head? ≠ Option.some '0' := by
  have hd : (pyStrNat n).data =
      ((Nat.digits 10 n).reverse.map (fun d => Char.ofNat (48 + d))) := by
    simp [pyStrNat, pyDigitsBE_pos n hn]
  rw [hd, List.head?_map, List.head?_reverse]
  have hnil : Nat.digits 10 n ≠ [] := Nat.digits_ne_nil_iff_ne_zero.mpr hn
  rw [List.getLast?_eq_getLast _ hnil]
  have hlast : (Nat.digits 10 n).getLast hnil ≠ 0 :=
    Nat.getLast_digit_ne_zero 10 hn
  have hmem : (Nat.digits 10 n).getLast hnil ∈ Nat.digits 10 n :=
    List.getLast_mem hnil
  have hlt : (Nat.digits 10 n).getLast hnil < 10 :=
    Nat.digits_lt_base (by norm_num) hmem
  generalize hgen : (Nat.digits 10 n).getLast hnil = d at hlast hlt
  interval_cases d <;> simp_all

/-- Mapping `getD` over an index range below the length recovers `take`. -/
theorem rangeMap_getD_eq_take (l : List String) (n : Nat)
    (h : n ≤ l.length) :
    (List.range n).map (fun i => l.getD i "") = l.take n := by
  apply List.ext_getElem
  · simp [Nat.min_eq_left h]
  · intro i h1 h2
    have hi : i < n := by simpa using h1
    have hil : i < l.length := Nat.lt_of_lt_of_le hi h
    simp only [List.getElem_map, List.getElem_range, List.getElem_take]
    exact List.getD_eq_getElem l "" hil

/-- The reuse-cap invariant: every reset window of the ledger serves no
value more than `reuseCap` times. -/
def poolCapOK (st : PoolState) : Prop :=
  ∀ w ∈ poolWindows st, ∀ v, w.count v ≤ reuseCap

/-- One acquisition preserves the reuse-cap invariant: a value is only
served into the open window while its count is below the cap, and a reset
opens a fresh window containing a single serve. -/
theorem poolAcquire_capOK (st : PoolState) (picks : List String)
    (resetPick : String) (h : poolCapOK st) :
    poolCapOK (poolAcquire st picks resetPick).2 := by
  unfold poolAcquire
  cases hfind : picks.find? (fun v => st.current.count v < reuseCap) with
  | some v =>
    have hv : st.current.count v < reuseCap := by
      have := List.find?_some hfind
      simpa using this
    intro w hw u
    simp only [poolWindows, List.mem_cons] at hw
    rcases hw with hw | hw
    · subst hw
      rw [List.count_append]
      rcases eq_or_ne u v with huv | huv
      · subst huv
        have : List.count u [u] = 1 := by simp
        omega
      · have : List.count u [v] = 0 := by
          simp [List.count_singleton, huv.symm]
        have hcur : st.current.count u ≤ reuseCap :=
          h st.current (by simp [poolWindows]) u
        omega
    · exact h w (by simp [poolWindows, hw]) u
  | none =>
    intro w hw u
    simp only [poolWindows, List.mem_cons] at hw
    rcases hw with hw | hw | hw
    · subst hw
      have : List.count u [resetPick] ≤ 1 := by
        simp [List.count_singleton]
        split <;> omega
      have : reuseCap = 2 := rfl
      omega
    · subst hw
      exact h st.current (by simp [poolWindows]) u
    · exact h w (by simp [poolWindows, hw]) u

/-- Any acquisition sequence preserves the reuse-cap invariant. -/
theorem runPool_capOK (st : PoolState) (ops : List (List String × String))
    (h : poolCapOK st) : poolCapOK (runPool st ops).1 := by
  induction ops generalizing st with
  | nil => exact h
  | cons op ops ih =>
    exact ih (poolAcquire st op.1 op.2).2 (poolAcquire_capOK st op.1 op.2 h)

/-- The fresh ledger satisfies the reuse-cap invariant. -/
theorem initPool_capOK : poolCapOK initPool := by
  intro w hw v
  simp only [initPool, poolWindows, List.mem_cons] at hw
  rcases hw with hw | hw
  · subst hw; simp
  · simp at hw

/-- Generating `a + b` rows is generating `a` rows and then `b` rows from
the state the first batch left. -/
theorem genRows_add {S Row : Type} (g : S → Row × S) (a b : Nat) (s : S) :
    genRows g (a + b) s =
      ((genRows g a s).1 ++ (genRows g b (genRows g a s).2).1,
        (genRows g b (genRows g a s).2).2) := by
  induction a generalizing s with
  | zero => simp [genRows]
  | succ a ih =>
    have hsucc : a + 1 + b = (a + b) + 1 := by omega
    rw [hsucc]
    simp only [genRows]
    rw [ih]
    simp

/-- After the first chunk the writer emits exactly the rows of the
remaining `m`-row suffix, with no header. -/
theorem chunkedLoopAux_tail {S Row : Type} (g : S → Row × S) (chunk : Nat)
    (hc : 1 ≤ chunk) :
    ∀ (fuel m : Nat) (s : S), m ≤ fuel →
      chunkedLoopAux g chunk fuel m false s =
        (genRows g m s).1.map CsvLine.row := by
  intro fuel
  induction fuel with
  | zero =>
    intro m s hm
    have : m = 0 := Nat.le_zero.mp hm
    subst this
    simp [chunkedLoopAux, genRows]
  | succ fuel ih =>
    intro m s hm
    match m with
    | 0 => simp [chunkedLoopAux, genRows]
    | m + 1 =>
      rw [chunkedLoopAux]
      have hcz : ¬ chunk = 0 := by omega
      simp only [hcz, if_false]
      have hk1 : 1 ≤ min chunk (m + 1) := by
        have := Nat.le_min.mpr ⟨hc, Nat.succ_le_succ (Nat.zero_le m)⟩
        omega
      have hkle : min chunk (m + 1) ≤ m + 1 := Nat.min_le_right _ _
      rw [ih (m + 1 - min chunk (m + 1)) _ (by omega)]
      have hsplit := genRows_add g (min chunk (m + 1))
        (m + 1 - min chunk (m + 1)) s
      have hsum : min chunk (m + 1) + (m + 1 - min chunk (m + 1)) = m + 1 := by
        omega
      rw [hsum] at hsplit
      rw [hsplit]
      simp

/-!
Claim theorems.
-/

/-- C1: for every acquisition sequence on a `(table, column)` pool key of
the employee-domain `foreign_key` rule, within any window between two
resets of that key's usage ledger no single candidate value is served more
than 2 times (the reuse cap): starting from a fresh ledger, every reset
window of the resulting ledger counts each value at most `reuseCap`. -/
theorem C1_reuse_cap (ops : List (List String × String)) :
    ∀ w ∈ poolWindows (runPool initPool ops).1, ∀ v, w.count v ≤ reuseCap :=
  runPool_capOK initPool ops initPool_capOK

/-- Witness for C1 on a concrete acquisition sequence: value `"a"` is
served twice, the third acquisition resets the ledger, and the closed
window `["a", "a"]` respects the cap. -/
theorem C1_reuse_cap_witness : List.count "a" ["a", "a"] ≤ reuseCap :=
  C1_reuse_cap [(["a"], "z"), (["a"], "z"), (["a"], "z")] ["a", "a"]
    (by decide) "a"

/-- The `(end_date, start_date)` pairs generated for one person id sighted
three times, with start-date draws 100, 50 and 70. -/
def threeSightings : List (Nat × Nat) :=
  (runSightings initPerson [100, 50, 70]).2

/-- C2 is refuted by the code: for an entity id sighted three times the
generated pairs are `(sentinel, 100)`, `(99, 50)`, `(99, 70)`; the start
dates 100, 50, 70 are not strictly decreasing, the third end date is
`99 = first start - 1` rather than `second start - 1 = 49`, and the
second and third `[start, end)` intervals overlap (both contain day 70).
The source always derives the end date from `person_start_dates[pid][0]`
and the start bound from `person_end_dates[pid][1]`, and never appends
later start dates to the history list. -/
theorem C2_third_sighting_breaks_invariant :
    threeSightings = [(sentinelDate, 100), (99, 50), (99, 70)] ∧
    ¬ (threeSightings.getD 2 (0, 0)).2 < (threeSightings.getD 1 (0, 0)).2 ∧
    (threeSightings.getD 2 (0, 0)).1 ≠ (threeSightings.getD 1 (0, 0)).2 - 1 ∧
    (threeSightings.getD 1 (0, 0)).2 ≤ (threeSightings.getD 2 (0, 0)).2 ∧
    (threeSightings.getD 2 (0, 0)).2 < (threeSightings.getD 1 (0, 0)).1 ∧
    (threeSightings.getD 2 (0, 0)).2 < (threeSightings.getD 2 (0, 0)).1 := by
  decide

/-- C3 as stated is false for chunked generation: with the 4 distinct
candidates `a b c d` and `M = 4 ≤ N = 4` requested rows generated in
chunks of 2, the positional index restarts at every chunk, so the table's
`1:1` column is `a b a b` — not pairwise distinct. -/
theorem C3_counterexample :
    (["a", "b", "c", "d"] : List String).Nodup ∧
    fkColumn1to1Chunked ["a", "b", "c", "d"] 4 2 = ["a", "b", "a", "b"] ∧
    ¬ (fkColumn1to1Chunked ["a", "b", "c", "d"] 4 2).Nodup := by decide

/-- C3 amended: within a single `generate_table` call with `N` distinct
candidates and `M ≤ N` requested rows, the `1:1` foreign-key column is the
first `M` candidates in order — pairwise distinct and assigned by
positional index. -/
theorem C3_one_to_one_single_pass (candidates : List String) (numRows : Nat)
    (hnd : candidates.Nodup) (hle : numRows ≤ candidates.length) :
    fkColumn1to1 candidates numRows = candidates.take numRows ∧
    (fkColumn1to1 candidates numRows).Nodup ∧
    ∀ i, i < numRows →
      (fkColumn1to1 candidates numRows).getD i "" = candidates.getD i "" := by
  have heq : fkColumn1to1 candidates numRows = candidates.take numRows := by
    unfold fkColumn1to1 fkColumnValue
    by_cases hce : candidates.isEmpty
    · have hnil : candidates = [] := by simpa [List.isEmpty_iff] using hce
      subst hnil
      have h0 : numRows = 0 := by simpa using hle
      subst h0
      simp
    · have hnl : ¬ candidates.length < numRows := Nat.not_lt.mpr hle
      simp only [hce, if_false, if_true, hnl]
      exact rangeMap_getD_eq_take candidates numRows hle
  refine ⟨heq, ?_, ?_⟩
  · rw [heq]
    exact List.Nodup.sublist (List.take_sublist numRows candidates) hnd
  · intro i hi
    rw [heq]
    have hlen : (candidates.take numRows).length = numRows := by
      simp [Nat.min_eq_left hle]
    have h1 : i < (candidates.take numRows).length := by omega
    have h2 : i < candidates.length := Nat.lt_of_lt_of_le hi hle
    rw [List.getD_eq_getElem _ "" h1, List.getD_eq_getElem _ "" h2]
    simp [List.getElem_take]

/-- Witness for C3 with candidates `a b c` and 2 requested rows. -/
theorem C3_one_to_one_single_pass_witness :
    fkColumn1to1 ["a", "b", "c"] 2 = (["a", "b", "c"] : List String).take 2 ∧
    (fkColumn1to1 ["a", "b", "c"] 2).Nodup :=
  ⟨(C3_one_to_one_single_pass ["a", "b", "c"] 2 (by decide) (by decide)).1,
   (C3_one_to_one_single_pass ["a", "b", "c"] 2 (by decide) (by decide)).2.1⟩

/-- C4 as stated is false: with a single candidate and 2 requested rows,
the `1:1` foreign-key column is fully generated with empty strings in
every row — the insufficient-candidates error is caught per column by the
dispatcher, not surfaced to the caller as a table-fatal failure. -/
theorem C4_counterexample :
    fkColumn1to1 ["a"] 2 = ["", ""] ∧ (fkColumn1to1 ["a"] 2).length = 2 := by
  decide

/-- C4 amended: when a `1:1` pool has fewer candidates than the requested
rows, the raised error is caught by the per-column handler, every row of
the column receives the empty string, and generation of the table
completes. -/
theorem C4_insufficient_caught_per_column (candidates : List String)
    (numRows : Nat) (hne : candidates ≠ [])
    (hlt : candidates.length < numRows) :
    fkColumn1to1 candidates numRows = List.replicate numRows "" := by
  unfold fkColumn1to1 fkColumnValue
  have hce : candidates.isEmpty = false := by
    simpa [List.isEmpty_iff] using hne
  simp [hce, hlt, List.map_const']

/-- Witness for C4 with one candidate and 2 requested rows. -/
theorem C4_insufficient_caught_per_column_witness :
    fkColumn1to1 ["a"] 2 = List.replicate 2 "" :=
  C4_insufficient_caught_per_column ["a"] 2 (by decide) (by decide)

/-- C5 as stated is false at `N = 0`: the chunked writer's loop body never
runs, so it emits nothing at all (not even the header), while a one-pass
write emits a header-only file. -/
theorem C5_counterexample :
    chunkedFile (fun s => (s, s + 1)) 1 0 0 = ([] : List (CsvLine Nat)) ∧
    onePassFile (fun s => (s, s + 1)) 0 0 = [CsvLine.header] ∧
    ([] : List (CsvLine Nat)) ≠ [CsvLine.header] := by decide

/-- C5 amended: for `N ≥ 1` rows and any chunk size `K ≥ 1`, generating in
one pass and writing once is identical to chunked generation from the same
state: the data rows agree and the header appears exactly once, at the top
(first chunk only).  Parametric in the row generator `g`, which threads
the process-wide random/rule state exactly as `generate_table` does. -/
theorem C5_chunk_equivalence {S Row : Type} (g : S → Row × S)
    (chunk total : Nat) (s : S) (hc : 1 ≤ chunk) (ht : 1 ≤ total) :
    chunkedFile g chunk total s = onePassFile g total s := by
  obtain ⟨m, rfl⟩ : ∃ m, total = m + 1 := ⟨total - 1, by omega⟩
  unfold chunkedFile onePassFile
  rw [chunkedLoopAux]
  have hcz : ¬ chunk = 0 := by omega
  simp only [hcz, if_false]
  have hk1 : 1 ≤ min chunk (m + 1) := by
    have := Nat.le_min.mpr ⟨hc, Nat.succ_le_succ (Nat.zero_le m)⟩
    omega
  rw [chunkedLoopAux_tail g chunk hc m _ _ (by omega)]
  have hsplit := genRows_add g (min chunk (m + 1))
    (m + 1 - min chunk (m + 1)) s
  have hsum : min chunk (m + 1) + (m + 1 - min chunk (m + 1)) = m + 1 := by
    omega
  rw [hsum] at hsplit
  rw [hsplit]
  simp

/-- Witness for C5: 3 rows in chunks of 2 equal the one-pass file. -/
theorem C5_chunk_equivalence_witness :
    chunkedFile (fun s => (s, s + 1)) 2 3 0 =
      onePassFile (fun s => (s, s + 1)) 3 0 :=
  C5_chunk_equivalence (fun s => (s, s + 1)) 2 3 0 (by decide) (by decide)

/-- A source table whose key column `K` holds the duplicated key `1`: the
first-occurring row carries `V = a`, the last-occurring row `V = b`. -/
def dupKeyRows : List CsvRow :=
  [[("K", "1"), ("V", "a")], [("K", "1"), ("V", "b")]]

/-- C6 is refuted by the code: both parent-lookup caches (the employee
dict comprehension and the vendor `set_index(...).to_dict()`) let a later
duplicate key overwrite the earlier binding, so the duplicated key
resolves to the LAST-occurring row (`V = b`), while the claim — and the
source's own comment — say the first-occurring row (`V = a`) wins. -/
theorem C6_duplicate_key_last_wins :
    rowGet (dupKeyRows.getD 0 []) "V" = Option.some "a" ∧
    rowGet (dupKeyRows.getD 1 []) "V" = Option.some "b" ∧
    lookup_parent_value dupKeyRows "K" "V" "1" = Option.some "b" ∧
    vendor_lookup_parent_value dupKeyRows "K" "V" "1" = Option.some "b" := by
  decide

/-- C7: a foreign-key acquisition whose candidate pool is empty — because
the source table file is missing, the column is missing, or the column has
no non-null values — yields the empty string with a warning, raises
nothing (the embedding is total), and leaves the pool ledger untouched, so
generation of the remaining columns and rows proceeds unaffected. -/
theorem C7_empty_pool_graceful :
    (∀ col, get_foreign_values Option.none col = []) ∧
    (∀ (t : CsvTable) col, colLookup t col = Option.none →
      get_foreign_values (Option.some t) col = []) ∧
    (∀ (t : CsvTable) col cells, colLookup t col = Option.some cells →
      cells.filterMap id = [] →
      get_foreign_values (Option.some t) col = []) ∧
    (∀ (st : PoolState) (picks : List String) (resetPick : String),
      foreign_key_acquire [] st picks resetPick = ("", st, true)) := by
  refine ⟨fun col => rfl, ?_, ?_, fun st picks resetPick => rfl⟩
  · intro t col h
    simp [get_foreign_values, h]
  · intro t col cells h1 h2
    simp [get_foreign_values, h1, h2, uniqueFirst, uniqueFirstAux]

/-- Witness for C7 on a concrete all-null single-column table. -/
theorem C7_empty_pool_graceful_witness :
    get_foreign_values
      (Option.some [("COL", [Option.none, Option.none])]) "OTHER" = [] ∧
    get_foreign_values
      (Option.some [("COL", [Option.none, Option.none])]) "COL" = [] ∧
    foreign_key_acquire [] initPool ["x"] "y" = ("", initPool, true) :=
  ⟨C7_empty_pool_graceful.2.1 _ "OTHER" (by decide),
   C7_empty_pool_graceful.2.2.1 _ "COL" [Option.none, Option.none]
     (by decide) (by decide),
   C7_empty_pool_graceful.2.2.2 initPool ["x"] "y"⟩

/-- C8 as stated is false: a column whose rule cell is missing/NaN gets
the Python value `None` from the dispatcher of
`core/data_generator.py::generate_table`, not a value from the
type-default generator (which always returns a string). -/
theorem C8_counterexample :
    dataGenDispatch PyRule.noRule true "varchar" 5
      ⟨"fk", "cu", ⟨"hello", 0⟩⟩ = Option.none ∧
    dataGenDispatch PyRule.noRule true "varchar" 5
      ⟨"fk", "cu", ⟨"hello", 0⟩⟩ ≠
      Option.some (get_generator "varchar" 5 ⟨"hello", 0⟩) := by decide

/-- C8 amended: a missing/NaN rule yields `None`; the type-default
generator is invoked exactly for columns whose rule is present but
unclassifiable — a non-string rule cell, or a string rule that is not a
`faker.` call while no domain rules module is loaded. -/
theorem C8_unspecified_rule_yields_null (b : Bool) (dtype : String)
    (length : Nat) (o : DispatchOracle) :
    dataGenDispatch PyRule.noRule b dtype length o = Option.none ∧
    (∀ s, pyStartsWith (pyStrip s) "faker." = false →
      dataGenDispatch (PyRule.str s) false dtype length o =
        Option.some (get_generator dtype length o.gen)) ∧
    dataGenDispatch PyRule.nonStr b dtype length o =
      Option.some (get_generator dtype length o.gen) := by
  refine ⟨rfl, ?_, rfl⟩
  intro s hs
  simp [dataGenDispatch, hs]

/-- Witness for C8: a custom-style rule string with no rules module loaded
falls through to the type-default generator. -/
theorem C8_unspecified_rule_yields_null_witness :
    dataGenDispatch (PyRule.str "default(X)") false "varchar" 5
      ⟨"fk", "cu", ⟨"hello", 0⟩⟩ =
      Option.some (get_generator "varchar" 5 ⟨"hello", 0⟩) :=
  (C8_unspecified_rule_yields_null false "varchar" 5
    ⟨"fk", "cu", ⟨"hello", 0⟩⟩).2.1 "default(X)" (by decide)

/-- C9 as stated is false at exactly the threshold: `main` compares with
`num_rows > CHUNK_THRESHOLD`, so a table of exactly 5000 rows takes the
in-memory path, not the chunked path. -/
theorem C9_counterexample :
    tableMode 5000 = GenMode.inMemory ∧
    GenMode.inMemory ≠ GenMode.chunked := by decide

/-- C9 amended: a table is generated and flushed in chunks exactly when
its requested row count is strictly above the threshold (5000); at or
below the threshold it is generated wholly in memory and written once. -/
theorem C9_threshold_dispatch (n : Nat) :
    (CHUNK_THRESHOLD < n → tableMode n = GenMode.chunked) ∧
    (n ≤ CHUNK_THRESHOLD → tableMode n = GenMode.inMemory) := by
  constructor
  · intro h
    simp [tableMode, h]
  · intro h
    simp [tableMode, Nat.not_lt.mpr h]

/-- Witness for C9 on both sides of the threshold. -/
theorem C9_threshold_dispatch_witness :
    tableMode 5001 = GenMode.chunked ∧ tableMode 5000 = GenMode.inMemory :=
  ⟨(C9_threshold_dispatch 5001).1 (by decide),
   (C9_threshold_dispatch 5000).2 (by decide)⟩

/-- C10 as stated is false: the `varchar` test precedes the `int` test in
`get_generator`, so a declared type containing both substrings (such as
`varchar_int`) takes the word branch and returns a truncated word, not a
digit string. -/
theorem C10_counterexample :
    pyContains (pyLower "varchar_int") "int" = true ∧
    get_generator "varchar_int" 2 ⟨"hello", 0⟩ = "he" ∧
    isDigitString "he" = false := by decide

/-- C10 amended: for a declared type containing `int` but not `varchar`,
the type-default generator with `L > 1` returns the decimal string of a
draw from `[10^(L-1), 10^L - 1]` — exactly `L` digits with a nonzero
leading digit — and with `L ≤ 1` the decimal string of a draw from
`[0, 9]`, a single digit. -/
theorem C10_int_default_generator (dtype : String) (length : Nat)
    (o : GenOracle)
    (hint : pyContains (pyLower dtype) "int" = true)
    (hvar : pyContains (pyLower dtype) "varchar" = false) :
    (1 < length →
      get_generator dtype length o =
        pyStrNat (randBetween (10 ^ (length - 1)) (10 ^ length - 1) o.r) ∧
      10 ^ (length - 1) ≤
        randBetween (10 ^ (length - 1)) (10 ^ length - 1) o.r ∧
      randBetween (10 ^ (length - 1)) (10 ^ length - 1) o.r ≤
        10 ^ length - 1 ∧
      (get_generator dtype length o).length = length ∧
      (get_generator dtype length o).data.head? ≠ Option.some '0') ∧
    (length ≤ 1 →
      get_generator dtype length o = pyStrNat (randBetween 0 9 o.r) ∧
      randBetween 0 9 o.r ≤ 9 ∧
      (get_generator dtype length o).length = 1) := by
  constructor
  · intro hL
    have hgen : get_generator dtype length o =
        pyStrNat (randBetween (10 ^ (length - 1)) (10 ^ length - 1) o.r) := by
      unfold get_generator
      simp [hint, hvar, hL]
    have hlohi : 10 ^ (length - 1) ≤ 10 ^ length - 1 := by
      have h1 : 10 ^ (length - 1) < 10 ^ length :=
        Nat.pow_lt_pow_right (by norm_num) (by omega)
      omega
    obtain ⟨hlo, hhi⟩ := randBetween_bounds _ _ o.r hlohi
    have hpos : 0 < 10 ^ length := Nat.pos_pow_of_pos _ (by norm_num)
    have hlen : (pyStrNat
        (randBetween (10 ^ (length - 1)) (10 ^ length - 1) o.r)).length =
        length :=
      pyStrNat_length_of_bounds length _ (by omega) hlo (by omega)
    have hne : randBetween (10 ^ (length - 1)) (10 ^ length - 1) o.r ≠ 0 := by
      have : 0 < 10 ^ (length - 1) := Nat.pos_pow_of_pos _ (by norm_num)
      omega
    refine ⟨hgen, hlo, hhi, ?_, ?_⟩
    · rw [hgen]; exact hlen
    · rw [hgen]; exact pyStrNat_head_ne_zero _ hne
  · intro hL
    have hnl : ¬ 1 < length := by omega
    have hgen : get_generator dtype length o =
        pyStrNat (randBetween 0 9 o.r) := by
      unfold get_generator
      simp [hint, hvar, hnl]
    have hhi : randBetween 0 9 o.r ≤ 9 :=
      (randBetween_bounds 0 9 o.r (by norm_num)).2
    refine ⟨hgen, hhi, ?_⟩
    rw [hgen]
    rcases Nat.eq_zero_or_pos (randBetween 0 9 o.r) with h0 | hp
    · rw [h0]; decide
    · refine pyStrNat_length_of_bounds 1 _ (Nat.le_refl 1) (by simpa using hp) ?_
      have h10 : (10 : Nat) ^ 1 = 10 := by norm_num
      omega

/-- Witness for C10 at type `int`, length 3, draw 12345. -/
theorem C10_int_default_generator_witness :
    get_generator "int" 3 ⟨"w", 12345⟩ =
      pyStrNat (randBetween (10 ^ (3 - 1)) (10 ^ 3 - 1) 12345) ∧
    10 ^ (3 - 1) ≤ randBetween (10 ^ (3 - 1)) (10 ^ 3 - 1) 12345 ∧
    randBetween (10 ^ (3 - 1)) (10 ^ 3 - 1) 12345 ≤ 10 ^ 3 - 1 ∧
    (get_generator "int" 3 ⟨"w", 12345⟩).length = 3 ∧
    (get_generator "int" 3 ⟨"w", 12345⟩).data.head? ≠ Option.some '0' :=
  (C10_int_default_generator "int" 3 ⟨"w", 12345⟩ (by decide) (by decide)).1
    (by decide)
